import Mathlib

/-!
Shallow embedding of the GastroTartarus front-end (a recipe/pantry
management UI).  Numbers that are JavaScript `number`s are modelled as
`ℚ` where fractional values can occur and as `Int` where the code only
ever sees integral millisecond timestamps or minute counts; JavaScript
`null`/`undefined` is modelled with `Option`.
-/

namespace GastroTartarus

/-- Chakra UI color palettes used by badges and progress bars. -/
inductive Color
  | green
  | orange
  | red
  | gray
  | blue
  deriving DecidableEq, Repr

/-!
### `formatTime`

Three textually identical copies of the minutes formatter exist, one per
file; they differ only in the value returned for a falsy input
(`"N/A"` in the recipes list, `null` in the recipe detail page and in the
suggestion card).  The input `minutes : number | null | undefined` is
modelled as `Option Int`: `none` is `null`/`undefined`, and the JS test
`!minutes` is true exactly for `none` and `some 0` on integral inputs.
`Math.floor(minutes / 60)` is `Int.fdiv` and the JS remainder
`minutes % 60` is the truncating `Int.tmod`.
-/

/-- `formatTime` from `routes/_layout/recipes.tsx` (returns `"N/A"` on falsy). -/
def formatTime_recipesList (minutes : Option Int) : String :=
  match minutes with
  | none => "N/A"
  | some m =>
    if m = 0 then "N/A"
    else if m < 60 then toString m ++ "m"
    else
      let hours := Int.fdiv m 60
      let remainingMinutes := Int.tmod m 60
      if remainingMinutes > 0 then
        toString hours ++ "h " ++ toString remainingMinutes ++ "m"
      else
        toString hours ++ "h"

/-- `formatTime` from `routes/_layout/recipes.$id.tsx` (returns `null` on falsy). -/
def formatTime_recipeDetail (minutes : Option Int) : Option String :=
  match minutes with
  | none => none
  | some m =>
    if m = 0 then none
    else if m < 60 then some (toString m ++ "m")
    else
      let hours := Int.fdiv m 60
      let remainingMinutes := Int.tmod m 60
      if remainingMinutes > 0 then
        some (toString hours ++ "h " ++ toString remainingMinutes ++ "m")
      else
        some (toString hours ++ "h")

/-- `formatTime` from `RecipeSuggestionCard` in the suggestions route
(returns `null` on falsy). -/
def formatTime_suggestionCard (minutes : Option Int) : Option String :=
  match minutes with
  | none => none
  | some m =>
    if m = 0 then none
    else if m < 60 then some (toString m ++ "m")
    else
      let hours := Int.fdiv m 60
      let remainingMinutes := Int.tmod m 60
      if remainingMinutes > 0 then
        some (toString hours ++ "h " ++ toString remainingMinutes ++ "m")
      else
        some (toString hours ++ "h")

/-- For nonnegative minutes the JS `Math.floor(minutes / 60)` agrees with
Euclidean division by 60. -/
theorem fdiv_sixty_eq (m : Int) (h : 0 ≤ m) : Int.fdiv m 60 = m / 60 :=
  Int.fdiv_eq_ediv m (by omega)

/-- For nonnegative minutes the JS remainder `minutes % 60` agrees with the
Euclidean remainder. -/
theorem tmod_sixty_eq (m : Int) (h : 0 ≤ m) : Int.tmod m 60 = m % 60 :=
  Int.tmod_eq_emod h (by omega)

/-- A string ending in the character `m` is never the literal `"N/A"`. -/
theorem append_m_ne_NA (s : String) : s ++ "m" ≠ "N/A" := by
  intro h
  have h2 : s.data ++ ['m'] = ['N', '/', 'A'] := by
    have h1 := congrArg String.data h
    rw [String.data_append] at h1
    exact h1
  have h3 := congrArg List.getLast? h2
  simp at h3

/-- A string ending in the character `h` is never the literal `"N/A"`. -/
theorem append_h_ne_NA (s : String) : s ++ "h" ≠ "N/A" := by
  intro h
  have h2 : s.data ++ ['h'] = ['N', '/', 'A'] := by
    have h1 := congrArg String.data h
    rw [String.data_append] at h1
    exact h1
  have h3 := congrArg List.getLast? h2
  simp at h3

/-- C10: each copy of `formatTime` returns its absent value (`"N/A"` in the
recipes list, `null` in the recipe detail page and the suggestion card)
exactly when the input is falsy, i.e. `null`/`undefined` (`none`) or `0`;
in particular a zero-minute time is displayed as missing, never as `"0m"`. -/
theorem formatTime_absent_iff_falsy (x : Option Int) :
    (formatTime_recipesList x = "N/A" ↔ x = none ∨ x = some 0)
    ∧ (formatTime_recipeDetail x = none ↔ x = none ∨ x = some 0)
    ∧ (formatTime_suggestionCard x = none ↔ x = none ∨ x = some 0) := by
  match x with
  | none => simp [formatTime_recipesList, formatTime_recipeDetail, formatTime_suggestionCard]
  | some m =>
    simp only [formatTime_recipesList, formatTime_recipeDetail, formatTime_suggestionCard,
      Option.some.injEq, reduceCtorEq, false_or]
    split_ifs with h1 h2 h3
    · simp [h1]
    · exact ⟨iff_of_false (append_m_ne_NA _) h1,
        iff_of_false (by simp) h1, iff_of_false (by simp) h1⟩
    · exact ⟨iff_of_false (append_m_ne_NA _) h1,
        iff_of_false (by simp) h1, iff_of_false (by simp) h1⟩
    · exact ⟨iff_of_false (append_h_ne_NA _) h1,
        iff_of_false (by simp) h1, iff_of_false (by simp) h1⟩

/-- C10 witness: evaluating the three formatters at the falsy input `0` and at
the non-falsy input `30`. -/
theorem formatTime_absent_iff_falsy_witness :
    formatTime_recipesList (some 0) = "N/A"
    ∧ formatTime_recipeDetail (some 0) = none
    ∧ formatTime_suggestionCard (some 0) = none := by
  refine ⟨?_, ?_, ?_⟩
  · exact (formatTime_absent_iff_falsy (some 0)).1.mpr (by decide)
  · exact (formatTime_absent_iff_falsy (some 0)).2.1.mpr (by decide)
  · exact (formatTime_absent_iff_falsy (some 0)).2.2.mpr (by decide)

/-- C3: for every integer `m ≥ 1`, each copy of `formatTime` produces
`"{m}m"` when `m < 60`, `"{h}h {r}m"` when `m ≥ 60` and `r = m % 60 > 0`
(with `h = ⌊m / 60⌋`), and `"{h}h"` when `r = 0`; and the three copies
(recipes list, recipe detail, suggestions card) agree on every such `m`. -/
theorem formatTime_spec (m : Int) (hm : 1 ≤ m) :
    (m < 60 →
      formatTime_recipesList (some m) = toString m ++ "m"
      ∧ formatTime_recipeDetail (some m) = some (toString m ++ "m")
      ∧ formatTime_suggestionCard (some m) = some (toString m ++ "m"))
    ∧ (60 ≤ m → 0 < m % 60 →
      formatTime_recipesList (some m)
          = toString (m / 60) ++ "h " ++ toString (m % 60) ++ "m"
      ∧ formatTime_recipeDetail (some m)
          = some (toString (m / 60) ++ "h " ++ toString (m % 60) ++ "m")
      ∧ formatTime_suggestionCard (some m)
          = some (toString (m / 60) ++ "h " ++ toString (m % 60) ++ "m"))
    ∧ (60 ≤ m → m % 60 = 0 →
      formatTime_recipesList (some m) = toString (m / 60) ++ "h"
      ∧ formatTime_recipeDetail (some m) = some (toString (m / 60) ++ "h")
      ∧ formatTime_suggestionCard (some m) = some (toString (m / 60) ++ "h"))
    ∧ formatTime_recipeDetail (some m) = formatTime_suggestionCard (some m)
    ∧ formatTime_recipeDetail (some m) = some (formatTime_recipesList (some m)) := by
  have h0 : ¬ m = 0 := by omega
  simp only [formatTime_recipesList, formatTime_recipeDetail, formatTime_suggestionCard,
    fdiv_sixty_eq m (by omega), tmod_sixty_eq m (by omega)]
  refine ⟨?_, ?_, ?_, ?_, ?_⟩
  · intro h60
    split_ifs <;> simp_all
  · intro h60 hr
    split_ifs <;> simp_all <;> omega
  · intro h60 hr
    split_ifs <;> simp_all <;> omega
  · first
    | trivial
    | split_ifs <;> simp
  · first
    | trivial
    | split_ifs <;> simp

/-- C3 witness: the three formatters at the concrete inputs 45, 135 and 120. -/
theorem formatTime_spec_witness :
    (formatTime_recipesList (some 45) = "45m"
      ∧ formatTime_recipeDetail (some 45) = some "45m")
    ∧ formatTime_recipesList (some 135) = "2h 15m"
    ∧ formatTime_suggestionCard (some 120) = some "2h" := by
  refine ⟨⟨?_, ?_⟩, ?_, ?_⟩
  · exact ((formatTime_spec 45 (by decide)).1 (by decide)).1
  · exact ((formatTime_spec 45 (by decide)).1 (by decide)).2.1
  · exact ((formatTime_spec 135 (by decide)).2.1 (by decide) (by decide)).1
  · exact ((formatTime_spec 120 (by decide)).2.2.1 (by decide) (by decide)).2.2

/-!
### Pantry expiration badges (`PantryTable` in the pantry route)

Timestamps are JS `Date.getTime()` millisecond values, modelled as `Int`;
an absent `expiration_date` (`null`) is `none`.  `Math.ceil` of the JS
float division is the rational ceiling.
-/

/-- `isExpiringSoon` from `PantryTable`: the ceiling of the day difference
`(expDate - today) / (1000*60*60*24)` lies between 0 and 7. -/
def isExpiringSoon (expirationDate : Option Int) (today : Int) : Bool :=
  match expirationDate with
  | none => false
  | some expDate =>
    let daysUntilExpiry : Int := ⌈((expDate - today : Int) : ℚ) / (1000 * 60 * 60 * 24)⌉
    decide (daysUntilExpiry ≤ 7) && decide (daysUntilExpiry ≥ 0)

/-- `isExpired` from `PantryTable`: the expiration instant is strictly
before now. -/
def isExpired (expirationDate : Option Int) (today : Int) : Bool :=
  match expirationDate with
  | none => false
  | some expDate => decide (expDate < today)

/-- Whether the red "Expired" badge is rendered for a pantry row: the row
must have an expiration date (the badge markup is inside the
`expiration_date ? … : …` branch) and `isExpired` must hold. -/
def pantryExpiredBadge (expirationDate : Option Int) (today : Int) : Bool :=
  expirationDate.isSome && isExpired expirationDate today

/-- Whether the orange "Soon" badge is rendered for a pantry row:
`!isExpired && isExpiringSoon`, inside the `expiration_date ? … : …`
branch. -/
def pantrySoonBadge (expirationDate : Option Int) (today : Int) : Bool :=
  expirationDate.isSome &&
    (!isExpired expirationDate today && isExpiringSoon expirationDate today)

/-- C8: the "Expired" and "Soon" badges are mutually exclusive; "Expired"
is shown iff the expiration date is strictly before now; "Soon" is shown
iff the row is not expired and `⌈(expiration - today) / 86400000⌉ ∈ [0, 7]`;
a row with no expiration date shows neither badge. -/
theorem pantry_badges_spec (e : Option Int) (today : Int) :
    ¬(pantryExpiredBadge e today = true ∧ pantrySoonBadge e today = true)
    ∧ (pantryExpiredBadge e today = true ↔ ∃ x, e = some x ∧ x < today)
    ∧ (pantrySoonBadge e today = true ↔
        ∃ x, e = some x ∧ ¬(x < today)
          ∧ 0 ≤ ⌈((x - today : Int) : ℚ) / 86400000⌉
          ∧ ⌈((x - today : Int) : ℚ) / 86400000⌉ ≤ 7)
    ∧ (e = none → pantryExpiredBadge e today = false ∧ pantrySoonBadge e today = false) := by
  cases e with
  | none =>
    simp [pantryExpiredBadge, pantrySoonBadge, isExpired, isExpiringSoon]
  | some x =>
    have hnum : ((1000 * 60 * 60 * 24 : ℚ)) = 86400000 := by norm_num
    refine ⟨?_, ?_, ?_, ?_⟩
    · rintro ⟨h1, h2⟩
      simp [pantryExpiredBadge, pantrySoonBadge, isExpired, isExpiringSoon] at h1 h2
      have h3 := h2.1
      omega
    · simp [pantryExpiredBadge, isExpired]
    · simp [pantrySoonBadge, isExpired, isExpiringSoon, hnum]
      tauto
    · intro h
      exact absurd h (by simp)

/-- C8 witness: a row with no expiration date shows neither badge. -/
theorem pantry_badges_spec_witness :
    pantryExpiredBadge none 0 = false ∧ pantrySoonBadge none 0 = false :=
  (pantry_badges_spec none 0).2.2.2 rfl

/-!
### Recipe suggestions (suggestions route)

The suggestion objects arrive fully computed from
`RecipesService.getRecipeSuggestions`; the view only renders their fields.
-/

/-- A catalog ingredient as referenced from a suggestion ingredient
(`ing.ingredient?.name`, `ing.ingredient?.unit`). -/
structure NamedIngredient where
  name : String
  unit : String
  deriving DecidableEq, Repr

/-- An element of `available_ingredients` / `missing_ingredients`. -/
structure SuggestionIngredient where
  id : String
  ingredient : Option NamedIngredient
  amount : ℚ
  deriving DecidableEq, Repr

/-- The `recipe` field of a suggestion (also the row shape of the recipes
list). -/
structure Recipe where
  id : String
  name : String
  description : Option String
  cuisine : Option String
  difficulty : Option String
  prep_time_minutes : Option Int
  cook_time_minutes : Option Int
  servings : Option Int
  instructions : Option String
  deriving DecidableEq, Repr

/-- One element of the `data` array returned by
`RecipesService.getRecipeSuggestions`. -/
structure Suggestion where
  recipe : Recipe
  match_score : ℚ
  available_ingredients : List SuggestionIngredient
  missing_ingredients : List SuggestionIngredient
  total_ingredients : ℚ
  available_count : ℚ
  deriving DecidableEq, Repr

/-- `getMatchScoreColor` from `RecipeSuggestionCard`. -/
def getMatchScoreColor (score : ℚ) : Color :=
  if score ≥ 0.8 then Color.green
  else if score ≥ 0.6 then Color.orange
  else Color.red

/-- JS `Math.round`: round half toward `+∞`. -/
def jsRound (q : ℚ) : Int := ⌊q + 1 / 2⌋

/-- The text of the match badge: `{Math.round(match_score * 100)}% match`. -/
def matchBadgeText (s : Suggestion) : String :=
  toString (jsRound (s.match_score * 100)) ++ "% match"

/-- The color palette of the match badge. -/
def matchBadgeColor (s : Suggestion) : Color :=
  getMatchScoreColor s.match_score

/-- The progress bar value:
`(available_count / total_ingredients) * 100`. -/
def progressValue (s : Suggestion) : ℚ :=
  s.available_count / s.total_ingredients * 100

/-- The heading `Ingredients ({available_count}/{total_ingredients}
available)` displays the two service-computed fields verbatim. -/
def ingredientsHeading (s : Suggestion) : ℚ × ℚ :=
  (s.available_count, s.total_ingredients)

/-- One ingredient badge as rendered in the Available/Missing sections:
`{ing.ingredient?.name} ({ing.amount} {ing.ingredient?.unit})` with the
section's color. -/
structure IngredientBadge where
  color : Color
  name : Option String
  amount : ℚ
  unit : Option String
  deriving DecidableEq, Repr

/-- Rendering of one suggestion ingredient as a badge of color `c`. -/
def renderIngredientBadge (c : Color) (ing : SuggestionIngredient) : IngredientBadge :=
  { color := c
    name := ing.ingredient.map NamedIngredient.name
    amount := ing.amount
    unit := ing.ingredient.map NamedIngredient.unit }

/-- The green badges of the Available section: one per element of
`available_ingredients`, in order. -/
def availableBadges (s : Suggestion) : List IngredientBadge :=
  s.available_ingredients.map (renderIngredientBadge Color.green)

/-- The red badges of the Missing section: one per element of
`missing_ingredients`, in order. -/
def missingBadges (s : Suggestion) : List IngredientBadge :=
  s.missing_ingredients.map (renderIngredientBadge Color.red)

/-- The badge/progress palette is green exactly on scores `≥ 0.8`. -/
theorem matchScoreColor_green_iff (q : ℚ) :
    getMatchScoreColor q = Color.green ↔ 0.8 ≤ q := by
  unfold getMatchScoreColor
  split_ifs with h1 h2
  · exact iff_of_true rfl h1
  · exact iff_of_false (by simp) h1
  · exact iff_of_false (by simp) h1

/-- The badge/progress palette is orange exactly on scores in `[0.6, 0.8)`. -/
theorem matchScoreColor_orange_iff (q : ℚ) :
    getMatchScoreColor q = Color.orange ↔ 0.6 ≤ q ∧ q < 0.8 := by
  unfold getMatchScoreColor
  split_ifs with h1 h2
  · exact iff_of_false (by simp) (by rintro ⟨h3, h4⟩; linarith)
  · exact iff_of_true rfl ⟨h2, lt_of_not_le h1⟩
  · exact iff_of_false (by simp) (by rintro ⟨h3, h4⟩; exact h2 h3)

/-- The badge/progress palette is red exactly on scores `< 0.6`. -/
theorem matchScoreColor_red_iff (q : ℚ) :
    getMatchScoreColor q = Color.red ↔ q < 0.6 := by
  unfold getMatchScoreColor
  split_ifs with h1 h2
  · exact iff_of_false (by simp) (by intro h; linarith)
  · exact iff_of_false (by simp) (by intro h; linarith)
  · exact iff_of_true rfl (lt_of_not_le h2)

/-- C4: the match badge text is `Math.round(match_score * 100)` followed by
`"% match"`; the badge color is green iff `match_score ≥ 0.8`, orange iff
`0.6 ≤ match_score < 0.8`, red iff `match_score < 0.6`; and the progress
bar value is `(available_count / total_ingredients) * 100`. -/
theorem match_display_spec (s : Suggestion) :
    matchBadgeText s = toString (jsRound (s.match_score * 100)) ++ "% match"
    ∧ (matchBadgeColor s = Color.green ↔ 0.8 ≤ s.match_score)
    ∧ (matchBadgeColor s = Color.orange ↔ 0.6 ≤ s.match_score ∧ s.match_score < 0.8)
    ∧ (matchBadgeColor s = Color.red ↔ s.match_score < 0.6)
    ∧ progressValue s = s.available_count / s.total_ingredients * 100 :=
  ⟨rfl, matchScoreColor_green_iff s.match_score,
    matchScoreColor_orange_iff s.match_score,
    matchScoreColor_red_iff s.match_score, rfl⟩

/-- C2: the ingredients heading shows `(available_count, total_ingredients)`
exactly as received (the theorem holds for every suggestion, with no
relation assumed between the counts and the ingredient lists, so nothing is
recomputed); every element of `available_ingredients` is rendered as one
green badge and every element of `missing_ingredients` as one red badge,
in order, with no element added, dropped, or moved between the lists. -/
theorem suggestion_card_verbatim (s : Suggestion) :
    ingredientsHeading s = (s.available_count, s.total_ingredients)
    ∧ (availableBadges s).length = s.available_ingredients.length
    ∧ (missingBadges s).length = s.missing_ingredients.length
    ∧ (∀ i (hi : i < (availableBadges s).length)
        (hj : i < s.available_ingredients.length),
        ((availableBadges s).get ⟨i, hi⟩).color = Color.green
        ∧ ((availableBadges s).get ⟨i, hi⟩).name
            = (s.available_ingredients.get ⟨i, hj⟩).ingredient.map NamedIngredient.name
        ∧ ((availableBadges s).get ⟨i, hi⟩).amount
            = (s.available_ingredients.get ⟨i, hj⟩).amount
        ∧ ((availableBadges s).get ⟨i, hi⟩).unit
            = (s.available_ingredients.get ⟨i, hj⟩).ingredient.map NamedIngredient.unit)
    ∧ (∀ i (hi : i < (missingBadges s).length)
        (hj : i < s.missing_ingredients.length),
        ((missingBadges s).get ⟨i, hi⟩).color = Color.red
        ∧ ((missingBadges s).get ⟨i, hi⟩).name
            = (s.missing_ingredients.get ⟨i, hj⟩).ingredient.map NamedIngredient.name
        ∧ ((missingBadges s).get ⟨i, hi⟩).amount
            = (s.missing_ingredients.get ⟨i, hj⟩).amount
        ∧ ((missingBadges s).get ⟨i, hi⟩).unit
            = (s.missing_ingredients.get ⟨i, hj⟩).ingredient.map NamedIngredient.unit) := by
  refine ⟨rfl, by simp [availableBadges], by simp [missingBadges], ?_, ?_⟩
  · intro i hi hj
    simp [availableBadges, renderIngredientBadge, List.get_eq_getElem]
  · intro i hi hj
    simp [missingBadges, renderIngredientBadge, List.get_eq_getElem]

/-- A concrete catalog ingredient used by the witnesses. -/
def sampleNamed : NamedIngredient := { name := "salt", unit := "g" }

/-- A concrete suggestion ingredient used by the witnesses. -/
def sampleSuggIng : SuggestionIngredient :=
  { id := "i1", ingredient := some sampleNamed, amount := 5 }

/-- A concrete recipe used by the witnesses. -/
def sampleRecipe : Recipe :=
  { id := "r1", name := "Soup", description := none, cuisine := none,
    difficulty := none, prep_time_minutes := none, cook_time_minutes := none,
    servings := none, instructions := none }

/-- A concrete suggestion used by the witnesses. -/
def sampleSuggestion : Suggestion :=
  { recipe := sampleRecipe, match_score := 3 / 4,
    available_ingredients := [sampleSuggIng],
    missing_ingredients := [sampleSuggIng],
    total_ingredients := 4, available_count := 3 }

/-- C2 witness: the first available badge of a concrete suggestion is green
and carries the ingredient's name. -/
theorem suggestion_card_verbatim_witness :
    ((availableBadges sampleSuggestion).get ⟨0, by decide⟩).color = Color.green
    ∧ ((availableBadges sampleSuggestion).get ⟨0, by decide⟩).name = some "salt" := by
  have h := (suggestion_card_verbatim sampleSuggestion).2.2.2.1 0 (by decide) (by decide)
  exact ⟨h.1, by rw [h.2.1]; rfl⟩

/-- The response of `RecipesService.getRecipeSuggestions` as consumed by
`SuggestionsContent` (`data?.data`). -/
structure SuggestionsResponse where
  data : List Suggestion
  deriving DecidableEq, Repr

/-- One rendered `RecipeSuggestionCard` element:
`<RecipeSuggestionCard key={suggestion.recipe.id} suggestion={suggestion}/>`. -/
structure SuggestionCardElem where
  key : String
  suggestion : Suggestion
  deriving DecidableEq, Repr

/-- What `SuggestionsContent` renders below the filter card: either the
empty-state placeholder or the list of suggestion cards. -/
inductive SuggestionsView
  | emptyState
  | cards (elems : List SuggestionCardElem)
  deriving DecidableEq, Repr

/-- The body of `SuggestionsContent`:
`const suggestions = data?.data ?? []`, then the empty-state placeholder
when `suggestions.length === 0` and otherwise one card per suggestion via
`suggestions.map`. -/
def suggestionsContent (data : Option SuggestionsResponse) : SuggestionsView :=
  let suggestions := (data.map SuggestionsResponse.data).getD []
  if suggestions.length = 0 then
    SuggestionsView.emptyState
  else
    SuggestionsView.cards
      (suggestions.map fun s => { key := s.recipe.id, suggestion := s })

/-- C1: the suggestions view performs no ranking, filtering or truncation of
its own: for every response, the rendered card list carries exactly the
elements of the response's `data` array, in the same order and with the
same length, and the empty-state placeholder is shown exactly when that
array is empty. -/
theorem suggestions_view_exact (resp : SuggestionsResponse) :
    (suggestionsContent (some resp) = SuggestionsView.emptyState ↔ resp.data = [])
    ∧ (∀ elems, suggestionsContent (some resp) = SuggestionsView.cards elems →
        elems.map SuggestionCardElem.suggestion = resp.data)
    ∧ (resp.data ≠ [] →
        suggestionsContent (some resp)
          = SuggestionsView.cards
              (resp.data.map fun s => { key := s.recipe.id, suggestion := s })) := by
  unfold suggestionsContent
  simp only [Option.map_some', Option.getD_some]
  refine ⟨?_, ?_, ?_⟩
  · split_ifs with h
    · exact iff_of_true rfl (List.length_eq_zero.mp h)
    · exact iff_of_false (by simp) fun hh => h (by simp [hh])
  · intro elems hel
    split_ifs at hel with h
    injection hel with h2
    subst h2
    rw [List.map_map]
    have hcomp : (SuggestionCardElem.suggestion ∘
        fun s => ({ key := s.recipe.id, suggestion := s } : SuggestionCardElem)) = id := by
      funext s
      rfl
    rw [hcomp, List.map_id]
  · intro h
    split_ifs with h0
    · exact absurd (List.length_eq_zero.mp h0) h
    · rfl

/-- C1 witness: a one-element response renders exactly one card holding that
suggestion, and a zero-element response shows the empty state. -/
theorem suggestions_view_exact_witness :
    suggestionsContent (some { data := [sampleSuggestion] })
      = SuggestionsView.cards
          [{ key := sampleSuggestion.recipe.id, suggestion := sampleSuggestion }]
    ∧ suggestionsContent (some { data := [] }) = SuggestionsView.emptyState := by
  constructor
  · have h := (suggestions_view_exact { data := [sampleSuggestion] }).2.2 (by simp)
    simpa using h
  · exact (suggestions_view_exact { data := [] }).1.mpr rfl

/-!
### URL search validation for the suggestions route

`suggestionsSearchSchema` is a zod schema; `z.number().min(a).max(b).catch(d)`
yields the input when it is a number within `[a, b]` and the fallback `d`
otherwise (missing, non-numeric — modelled as `none` — or out of range).
-/

/-- The `min_match_score` field: `z.number().min(0).max(1).catch(0.3)`. -/
def parse_min_match_score (v : Option ℚ) : ℚ :=
  match v with
  | some q => if 0 ≤ q ∧ q ≤ 1 then q else 0.3
  | none => 0.3

/-- The `limit` field: `z.number().min(1).max(50).catch(10)`. -/
def parse_limit (v : Option ℚ) : ℚ :=
  match v with
  | some q => if 1 ≤ q ∧ q ≤ 50 then q else 10
  | none => 10

/-- `suggestionsSearchSchema.parse` on the raw URL search object. -/
def suggestionsSearchSchema (min_match_score limit : Option ℚ) : ℚ × ℚ :=
  (parse_min_match_score min_match_score, parse_limit limit)

/-- The parameters of the `RecipesService.getRecipeSuggestions` call. -/
structure GetRecipeSuggestionsParams where
  minMatchScore : ℚ
  limit : ℚ
  deriving DecidableEq, Repr

/-- The query options built by `getRecipeSuggestionsQueryOptions`:
the `queryFn` calls the service with exactly the given values, and the
`queryKey` records them. -/
structure SuggestionsQueryOptions where
  queryCall : GetRecipeSuggestionsParams
  queryKeyName : String
  queryKeyScore : ℚ
  queryKeyLimit : ℚ
  deriving DecidableEq, Repr

/-- `getRecipeSuggestionsQueryOptions` from the suggestions route. -/
def getRecipeSuggestionsQueryOptions (min_match_score limit : ℚ) :
    SuggestionsQueryOptions :=
  { queryCall := { minMatchScore := min_match_score, limit := limit }
    queryKeyName := "recipe-suggestions"
    queryKeyScore := min_match_score
    queryKeyLimit := limit }

/-- The validated score always lies in `[0, 1]`. -/
theorem parse_min_match_score_mem (v : Option ℚ) :
    0 ≤ parse_min_match_score v ∧ parse_min_match_score v ≤ 1 := by
  match v with
  | none =>
    simp only [parse_min_match_score]
    norm_num
  | some q =>
    simp only [parse_min_match_score]
    split_ifs with h
    · exact h
    · norm_num

/-- The validated limit always lies in `[1, 50]`. -/
theorem parse_limit_mem (v : Option ℚ) :
    1 ≤ parse_limit v ∧ parse_limit v ≤ 50 := by
  match v with
  | none =>
    simp only [parse_limit]
    norm_num
  | some q =>
    simp only [parse_limit]
    split_ifs with h
    · exact h
    · norm_num

/-- C5: the validated search parameters satisfy `0 ≤ min_match_score ≤ 1`
and `1 ≤ limit ≤ 50`; missing, non-numeric or out-of-range inputs are
replaced by `0.3` and `10`; and the query options pass exactly the
validated values to `RecipesService.getRecipeSuggestions`. -/
theorem suggestions_search_validation (rawScore rawLimit : Option ℚ) :
    (0 ≤ (suggestionsSearchSchema rawScore rawLimit).1
      ∧ (suggestionsSearchSchema rawScore rawLimit).1 ≤ 1)
    ∧ (1 ≤ (suggestionsSearchSchema rawScore rawLimit).2
      ∧ (suggestionsSearchSchema rawScore rawLimit).2 ≤ 50)
    ∧ (rawScore = none → (suggestionsSearchSchema rawScore rawLimit).1 = 0.3)
    ∧ (∀ q, rawScore = some q → ¬(0 ≤ q ∧ q ≤ 1) →
        (suggestionsSearchSchema rawScore rawLimit).1 = 0.3)
    ∧ (rawLimit = none → (suggestionsSearchSchema rawScore rawLimit).2 = 10)
    ∧ (∀ q, rawLimit = some q → ¬(1 ≤ q ∧ q ≤ 50) →
        (suggestionsSearchSchema rawScore rawLimit).2 = 10)
    ∧ (getRecipeSuggestionsQueryOptions (suggestionsSearchSchema rawScore rawLimit).1
          (suggestionsSearchSchema rawScore rawLimit).2).queryCall
        = { minMatchScore := (suggestionsSearchSchema rawScore rawLimit).1,
            limit := (suggestionsSearchSchema rawScore rawLimit).2 } := by
  refine ⟨parse_min_match_score_mem rawScore, parse_limit_mem rawLimit,
    ?_, ?_, ?_, ?_, rfl⟩
  · intro h
    subst h
    rfl
  · intro q hq hrange
    subst hq
    simp only [suggestionsSearchSchema, parse_min_match_score]
    rw [if_neg hrange]
  · intro h
    subst h
    rfl
  · intro q hq hrange
    subst hq
    simp only [suggestionsSearchSchema, parse_limit]
    rw [if_neg hrange]

/-- C5 witness: an out-of-range score and a missing limit fall back to `0.3`
and `10`. -/
theorem suggestions_search_validation_witness :
    (suggestionsSearchSchema (some 7) none).1 = 0.3
    ∧ (suggestionsSearchSchema (some 7) none).2 = 10 :=
  ⟨(suggestions_search_validation (some 7) none).2.2.2.1 7 rfl (by norm_num),
    (suggestions_search_validation (some 7) none).2.2.2.2.1 rfl⟩

/-!
### Paginated tables (ingredients, recipes, pantry routes)

Each route defines `PER_PAGE = 10` and requests
`skip = (page - 1) * PER_PAGE`, `limit = PER_PAGE`; the rendered rows are
`data?.data.slice(0, PER_PAGE) ?? []`.
-/

/-- The `PER_PAGE` constant (`10` in all three route files). -/
def PER_PAGE : ℚ := 10

/-- Parameters of `IngredientsService.readIngredients`. -/
structure ReadIngredientsParams where
  skip : ℚ
  limit : ℚ
  search : Option String
  deriving DecidableEq, Repr

/-- Parameters of `RecipesService.readRecipes`. -/
structure ReadRecipesParams where
  skip : ℚ
  limit : ℚ
  search : Option String
  deriving DecidableEq, Repr

/-- Parameters of `UserIngredientsService.readUserIngredients`. -/
structure ReadUserIngredientsParams where
  skip : ℚ
  limit : ℚ
  expiringSoon : Bool
  daysAhead : ℚ
  deriving DecidableEq, Repr

/-- `getIngredientsQueryOptions`: the request derives purely from the URL
parameters; `search || undefined` sends an empty search as `undefined`. -/
def getIngredientsQueryOptions (page : ℚ) (search : String) : ReadIngredientsParams :=
  { skip := (page - 1) * PER_PAGE
    limit := PER_PAGE
    search := if search = "" then none else some search }

/-- `getRecipesQueryOptions` from the recipes route. -/
def getRecipesQueryOptions (page : ℚ) (search : String) : ReadRecipesParams :=
  { skip := (page - 1) * PER_PAGE
    limit := PER_PAGE
    search := if search = "" then none else some search }

/-- `getUserIngredientsQueryOptions` from the pantry route. -/
def getUserIngredientsQueryOptions (page : ℚ) (expiring_soon : Bool) :
    ReadUserIngredientsParams :=
  { skip := (page - 1) * PER_PAGE
    limit := PER_PAGE
    expiringSoon := expiring_soon
    daysAhead := 7 }

/-- The rows actually rendered by each table:
`data?.data.slice(0, PER_PAGE) ?? []` (`PER_PAGE = 10`). -/
def tableRows {α : Type} (data : Option (List α)) : List α :=
  match data with
  | none => []
  | some rows => rows.take 10

/-- C6: for every page number `p` the three list queries request
`skip = (p - 1) * 10` and `limit = 10`; an empty search string is sent as
`undefined`; and the rendered table shows at most 10 rows even if the
service returns more items. -/
theorem paginated_tables_spec (p : ℚ) (s : String) :
    (getIngredientsQueryOptions p s).skip = (p - 1) * 10
    ∧ (getIngredientsQueryOptions p s).limit = 10
    ∧ (getRecipesQueryOptions p s).skip = (p - 1) * 10
    ∧ (getRecipesQueryOptions p s).limit = 10
    ∧ (∀ es : Bool, (getUserIngredientsQueryOptions p es).skip = (p - 1) * 10
        ∧ (getUserIngredientsQueryOptions p es).limit = 10)
    ∧ (s = "" → (getIngredientsQueryOptions p s).search = none
        ∧ (getRecipesQueryOptions p s).search = none)
    ∧ (s ≠ "" → (getIngredientsQueryOptions p s).search = some s
        ∧ (getRecipesQueryOptions p s).search = some s)
    ∧ (∀ rows : Option (List Recipe), (tableRows rows).length ≤ 10) := by
  refine ⟨rfl, rfl, rfl, rfl, fun es => ⟨rfl, rfl⟩, ?_, ?_, ?_⟩
  · intro h
    subst h
    exact ⟨rfl, rfl⟩
  · intro h
    exact ⟨by simp [getIngredientsQueryOptions, h],
      by simp [getRecipesQueryOptions, h]⟩
  · intro rows
    match rows with
    | none => simp [tableRows]
    | some l =>
      simp only [tableRows, List.length_take]
      omega

/-- C6 witness: concrete requests for page 3 with an empty search and page 2
with a non-empty one, and a 12-row response rendered as 10 rows. -/
theorem paginated_tables_spec_witness :
    (getIngredientsQueryOptions 3 "").search = none
    ∧ (getRecipesQueryOptions 2 "egg").search = some "egg"
    ∧ (tableRows (some (List.replicate 12 sampleRecipe))).length ≤ 10 :=
  ⟨((paginated_tables_spec 3 "").2.2.2.2.2.1 rfl).1,
    ((paginated_tables_spec 2 "egg").2.2.2.2.2.2.1 (by decide)).2,
    (paginated_tables_spec 2 "egg").2.2.2.2.2.2.2 (some (List.replicate 12 sampleRecipe))⟩

/-!
### URL search updates (`navigate({ search: prev => ({ ...prev, … }) })`)

The previous URL search object `prev` is modelled as a partial map from
parameter names to values; the object spread `{ ...prev, k: v, … }` keeps
every key of `prev` and overrides the listed ones.
-/

/-- A URL search parameter value (string, numeric or boolean). -/
inductive SearchVal
  | str (s : String)
  | num (q : ℚ)
  | bool (b : Bool)
  deriving DecidableEq, Repr

/-- `handleSearch` from the ingredients route:
`{ ...prev, search: newSearch, page: 1 }`. -/
def handleSearch_ingredients (prev : String → Option SearchVal) (newSearch : String) :
    String → Option SearchVal :=
  fun k =>
    if k = "search" then some (SearchVal.str newSearch)
    else if k = "page" then some (SearchVal.num 1)
    else prev k

/-- `handleSearch` from the recipes route:
`{ ...prev, search: newSearch, page: 1 }`. -/
def handleSearch_recipes (prev : String → Option SearchVal) (newSearch : String) :
    String → Option SearchVal :=
  fun k =>
    if k = "search" then some (SearchVal.str newSearch)
    else if k = "page" then some (SearchVal.num 1)
    else prev k

/-- `toggleExpiringSoon` from the pantry route:
`{ ...prev, expiring_soon: checked, page: 1 }`. -/
def toggleExpiringSoon (prev : String → Option SearchVal) (checked : Bool) :
    String → Option SearchVal :=
  fun k =>
    if k = "expiring_soon" then some (SearchVal.bool checked)
    else if k = "page" then some (SearchVal.num 1)
    else prev k

/-- `setPage` from the ingredients route: `{ ...prev, page }`. -/
def setPage_ingredients (prev : String → Option SearchVal) (page : ℚ) :
    String → Option SearchVal :=
  fun k => if k = "page" then some (SearchVal.num page) else prev k

/-- `setPage` from the recipes route: `{ ...prev, page }`. -/
def setPage_recipes (prev : String → Option SearchVal) (page : ℚ) :
    String → Option SearchVal :=
  fun k => if k = "page" then some (SearchVal.num page) else prev k

/-- `setPage` from the pantry route: `{ ...prev, page }`. -/
def setPage_pantry (prev : String → Option SearchVal) (page : ℚ) :
    String → Option SearchVal :=
  fun k => if k = "page" then some (SearchVal.num page) else prev k

/-- C9: submitting a search term (ingredients, recipes) or toggling the
expiring-soon filter (pantry) sets `page` to 1 and the submitted value,
leaving every other URL search parameter unchanged; `setPage` changes only
the `page` parameter. -/
theorem navigation_frame_spec (prev : String → Option SearchVal)
    (newSearch : String) (checked : Bool) (p : ℚ) :
    (handleSearch_ingredients prev newSearch "page" = some (SearchVal.num 1)
      ∧ handleSearch_ingredients prev newSearch "search" = some (SearchVal.str newSearch)
      ∧ ∀ k, k ≠ "search" → k ≠ "page" →
          handleSearch_ingredients prev newSearch k = prev k)
    ∧ (handleSearch_recipes prev newSearch "page" = some (SearchVal.num 1)
      ∧ handleSearch_recipes prev newSearch "search" = some (SearchVal.str newSearch)
      ∧ ∀ k, k ≠ "search" → k ≠ "page" →
          handleSearch_recipes prev newSearch k = prev k)
    ∧ (toggleExpiringSoon prev checked "page" = some (SearchVal.num 1)
      ∧ toggleExpiringSoon prev checked "expiring_soon" = some (SearchVal.bool checked)
      ∧ ∀ k, k ≠ "expiring_soon" → k ≠ "page" →
          toggleExpiringSoon prev checked k = prev k)
    ∧ (setPage_ingredients prev p "page" = some (SearchVal.num p)
      ∧ setPage_recipes prev p "page" = some (SearchVal.num p)
      ∧ setPage_pantry prev p "page" = some (SearchVal.num p)
      ∧ ∀ k, k ≠ "page" →
          setPage_ingredients prev p k = prev k
          ∧ setPage_recipes prev p k = prev k
          ∧ setPage_pantry prev p k = prev k) := by
  refine ⟨⟨by simp [handleSearch_ingredients], by simp [handleSearch_ingredients], ?_⟩,
    ⟨by simp [handleSearch_recipes], by simp [handleSearch_recipes], ?_⟩,
    ⟨by simp [toggleExpiringSoon], by simp [toggleExpiringSoon], ?_⟩,
    by simp [setPage_ingredients], by simp [setPage_recipes],
    by simp [setPage_pantry], ?_⟩
  · intro k h1 h2
    simp [handleSearch_ingredients, h1, h2]
  · intro k h1 h2
    simp [handleSearch_recipes, h1, h2]
  · intro k h1 h2
    simp [toggleExpiringSoon, h1, h2]
  · intro k h1
    exact ⟨by simp [setPage_ingredients, h1], by simp [setPage_recipes, h1],
      by simp [setPage_pantry, h1]⟩

/-- C9 witness: a concrete previous search object, search submission and
untouched third key. -/
theorem navigation_frame_spec_witness :
    handleSearch_ingredients (fun _ => none) "tomato" "page" = some (SearchVal.num 1)
    ∧ toggleExpiringSoon (fun _ => some (SearchVal.num 4)) true "other"
        = some (SearchVal.num 4) := by
  constructor
  · exact (navigation_frame_spec (fun _ => none) "tomato" true 2).1.1
  · exact (navigation_frame_spec (fun _ => some (SearchVal.num 4)) "x" true 2).2.2.1.2.2
      "other" (by decide) (by decide)

/-!
### Mutations (`useMutation` handlers of the form/dialog components)

Each mutation is transcribed as a record of its observable handler effects:
which query keys its `onSettled` invalidates, whether `onSuccess` shows a
success toast and closes the component's dialog (`none` when the component
has no dialog at all, as for the inline delete button of
`RecipeIngredients`), and whether `onError` calls `handleError` and closes
the dialog.
-/

/-- The observable effects of one `useMutation` declaration. -/
structure MutationSpec where
  /-- Query keys passed to `queryClient.invalidateQueries` in `onSettled`. -/
  onSettledInvalidates : List (List String)
  /-- `onSuccess` calls `showSuccessToast`. -/
  successToast : Bool
  /-- `some b`: the component has a dialog and `onSuccess` closes it iff `b`
  (`setIsOpen(false)`); `none`: the component has no dialog. -/
  successClosesDialog : Option Bool
  /-- `onError` calls `handleError`. -/
  errorHandleError : Bool
  /-- Like `successClosesDialog`, for the `onError` handler. -/
  errorClosesDialog : Option Bool
  deriving DecidableEq, Repr

/-- The create-ingredient mutation of `AddIngredient`. -/
def addIngredientMutation : MutationSpec :=
  { onSettledInvalidates := [["ingredients"]]
    successToast := true
    successClosesDialog := some true
    errorHandleError := true
    errorClosesDialog := some false }

/-- The update-ingredient mutation of `EditIngredient`. -/
def editIngredientMutation : MutationSpec :=
  { onSettledInvalidates := [["ingredients"]]
    successToast := true
    successClosesDialog := some true
    errorHandleError := true
    errorClosesDialog := some false }

/-- The create-recipe mutation of `AddRecipe`. -/
def addRecipeMutation : MutationSpec :=
  { onSettledInvalidates := [["recipes"]]
    successToast := true
    successClosesDialog := some true
    errorHandleError := true
    errorClosesDialog := some false }

/-- The update-recipe mutation of `EditRecipe` (it invalidates both the
`recipes` list and the `recipe` detail query of the edited id). -/
def editRecipeMutation (recipeId : String) : MutationSpec :=
  { onSettledInvalidates := [["recipes"], ["recipe", recipeId]]
    successToast := true
    successClosesDialog := some true
    errorHandleError := true
    errorClosesDialog := some false }

/-- The add-pantry-ingredient mutation of `AddUserIngredient`. -/
def addUserIngredientMutation : MutationSpec :=
  { onSettledInvalidates := [["user-ingredients"]]
    successToast := true
    successClosesDialog := some true
    errorHandleError := true
    errorClosesDialog := some false }

/-- The add-recipe-ingredient mutation of `AddRecipeIngredient`. -/
def addRecipeIngredientMutation (recipeId : String) : MutationSpec :=
  { onSettledInvalidates := [["recipe-ingredients", recipeId]]
    successToast := true
    successClosesDialog := some true
    errorHandleError := true
    errorClosesDialog := some false }

/-- The delete-recipe-ingredient mutation of `RecipeIngredients`: it is
triggered from an inline table button behind `window.confirm`, not from a
dialog, so its handlers touch no dialog. -/
def deleteRecipeIngredientMutation (recipeId : String) : MutationSpec :=
  { onSettledInvalidates := [["recipe-ingredients", recipeId]]
    successToast := true
    successClosesDialog := none
    errorHandleError := true
    errorClosesDialog := none }

/-- C7 counterexample: the delete-recipe-ingredient mutation does not close
a dialog on success (it has none), so the claim that every mutation "on
success … closes the dialog" fails at this concrete mutation. -/
theorem mutation_dialog_counterexample :
    ¬((deleteRecipeIngredientMutation "ri1").successClosesDialog = some true) := by
  decide

/-- C7 amended: every mutation invalidates its corresponding query keys in
`onSettled` (after the mutation completes, whether it succeeded or failed),
shows a success toast on success, and calls `handleError` on error without
closing any dialog; every dialog-backed mutation — all of them except the
delete-recipe-ingredient mutation, which has no dialog — additionally
closes its dialog on success. -/
theorem mutation_settled_spec (recipeId : String) :
    (addIngredientMutation.onSettledInvalidates = [["ingredients"]]
      ∧ addIngredientMutation.successToast = true
      ∧ addIngredientMutation.successClosesDialog = some true
      ∧ addIngredientMutation.errorHandleError = true
      ∧ addIngredientMutation.errorClosesDialog = some false)
    ∧ (editIngredientMutation.onSettledInvalidates = [["ingredients"]]
      ∧ editIngredientMutation.successToast = true
      ∧ editIngredientMutation.successClosesDialog = some true
      ∧ editIngredientMutation.errorHandleError = true
      ∧ editIngredientMutation.errorClosesDialog = some false)
    ∧ (addRecipeMutation.onSettledInvalidates = [["recipes"]]
      ∧ addRecipeMutation.successToast = true
      ∧ addRecipeMutation.successClosesDialog = some true
      ∧ addRecipeMutation.errorHandleError = true
      ∧ addRecipeMutation.errorClosesDialog = some false)
    ∧ ((editRecipeMutation recipeId).onSettledInvalidates
          = [["recipes"], ["recipe", recipeId]]
      ∧ (editRecipeMutation recipeId).successToast = true
      ∧ (editRecipeMutation recipeId).successClosesDialog = some true
      ∧ (editRecipeMutation recipeId).errorHandleError = true
      ∧ (editRecipeMutation recipeId).errorClosesDialog = some false)
    ∧ (addUserIngredientMutation.onSettledInvalidates = [["user-ingredients"]]
      ∧ addUserIngredientMutation.successToast = true
      ∧ addUserIngredientMutation.successClosesDialog = some true
      ∧ addUserIngredientMutation.errorHandleError = true
      ∧ addUserIngredientMutation.errorClosesDialog = some false)
    ∧ ((addRecipeIngredientMutation recipeId).onSettledInvalidates
          = [["recipe-ingredients", recipeId]]
      ∧ (addRecipeIngredientMutation recipeId).successToast = true
      ∧ (addRecipeIngredientMutation recipeId).successClosesDialog = some true
      ∧ (addRecipeIngredientMutation recipeId).errorHandleError = true
      ∧ (addRecipeIngredientMutation recipeId).errorClosesDialog = some false)
    ∧ ((deleteRecipeIngredientMutation recipeId).onSettledInvalidates
          = [["recipe-ingredients", recipeId]]
      ∧ (deleteRecipeIngredientMutation recipeId).successToast = true
      ∧ (deleteRecipeIngredientMutation recipeId).successClosesDialog = none
      ∧ (deleteRecipeIngredientMutation recipeId).errorHandleError = true
      ∧ (deleteRecipeIngredientMutation recipeId).errorClosesDialog = none) :=
  ⟨⟨rfl, rfl, rfl, rfl, rfl⟩, ⟨rfl, rfl, rfl, rfl, rfl⟩, ⟨rfl, rfl, rfl, rfl, rfl⟩,
    ⟨rfl, rfl, rfl, rfl, rfl⟩, ⟨rfl, rfl, rfl, rfl, rfl⟩, ⟨rfl, rfl, rfl, rfl, rfl⟩,
    ⟨rfl, rfl, rfl, rfl, rfl⟩⟩

end GastroTartarus
